import Mathlib

/-!
Shallow embedding of the input monitor of `src/system/launcher/src/input_monitor.c`
(repository beebono/mimiki).

Modelling conventions:
* Instants of the monotonic clock are `Int` milliseconds.  The C code stores
  `struct timespec` values and converts differences to milliseconds with
  `(sec_diff)*1000 + (nsec_diff)/1000000`; since `CLOCK_MONOTONIC` never goes
  backwards, modelling an instant directly as its millisecond value is faithful.
* The `system(...)` side effects (suspend, backlight write, mixer call) are
  modelled as abstract `Action` values collected in a list, in emission order.
  `system` is modelled as instantaneous, so the `clock_gettime` performed right
  after a suspend reads the same instant as the event being handled.
* `read(fd, &ev, sizeof ev)` on a source is modelled by a list of `ReadResult`:
  the values successive reads would return this tick.  The C drain loop stops at
  the first read that does not return a full event; the model keeps the
  unconsumed suffix so that backlog can be stated.
* The static globals of the C file (`input_fds`, `power_press_time`,
  `last_wake_time`, `power_button_held`, `mode_button_held`,
  `current_brightness`) form `MonitorState`.  The extern flag `backlight_on`
  is owned elsewhere and is passed as a read-only parameter.
-/

namespace Mimiki

/-- Linux `EV_KEY` event type (value 1). -/
def EV_KEY : Nat := 1

/-- Linux `EV_SW` event type (value 5). -/
def EV_SW : Nat := 5

/-- Linux `BTN_MODE` key code (0x13c). -/
def BTN_MODE : Nat := 316

/-- Linux `KEY_POWER` key code. -/
def KEY_POWER : Nat := 116

/-- Linux `KEY_VOLUMEUP` key code. -/
def KEY_VOLUMEUP : Nat := 115

/-- Linux `KEY_VOLUMEDOWN` key code. -/
def KEY_VOLUMEDOWN : Nat := 114

/-- Linux `SW_LID` switch code. -/
def SW_LID : Nat := 0

/-- `#define WAKE_DEBOUNCE_MS 500` from input_monitor.c. -/
def WAKE_DEBOUNCE_MS : Int := 500

/-- One `struct input_event` as delivered by a device, together with the
monotonic-clock instant (ms) at which the monitor handles it. -/
structure InputEvent where
  type : Nat
  code : Nat
  value : Int
  time : Int
  deriving DecidableEq

/-- The externally visible side effects issued by `input_monitor_check_hotkeys`
through `system(...)`: suspend (`echo mem > /sys/power/state`), a backlight
write with the raw value written, and the two mixer volume calls. -/
inductive Action where
  | suspend
  | setBrightness (raw : Int)
  | volumeUp
  | volumeDown
  deriving DecidableEq

/-- The static mutable state of input_monitor.c. -/
structure MonitorState where
  inputFds : List Int
  powerPressTime : Int
  lastWakeTime : Int
  powerHeld : Bool
  modeHeld : Bool
  brightness : Int
  deriving DecidableEq

/-- The state right after `input_monitor_init` stored `fds`: timespecs are
zero-initialised, both held flags false, `current_brightness = 52`. -/
def initialState (fds : List Int) : MonitorState :=
  { inputFds := fds, powerPressTime := 0, lastWakeTime := 0,
    powerHeld := false, modeHeld := false, brightness := 52 }

/-- Result of handling one event: updated state, emitted actions in order, and
whether the handler executed `return true` (shutdown requested). -/
structure EvResult where
  state : MonitorState
  actions : List Action
  shutdown : Bool
  deriving DecidableEq

/-- The body of the drain loop of `input_monitor_check_hotkeys`
(input_monitor.c lines 97-186): the `EV_KEY`/`EV_SW` filter followed by the
`switch (ev.code)`. -/
def handleEvent (backlightOn : Bool) (s : MonitorState) (ev : InputEvent) : EvResult :=
  if ev.type ≠ EV_KEY ∧ ev.type ≠ EV_SW then ⟨s, [], false⟩
  else if ev.code = BTN_MODE then
    -- case BTN_MODE (lines 102-104)
    ⟨{ s with modeHeld := decide (ev.value = 1 ∨ ev.value = 2) }, [], false⟩
  else if ev.code = KEY_POWER then
    -- case KEY_POWER (lines 106-133)
    if ev.value = 1 ∧ s.powerHeld = false then
      ⟨{ s with powerPressTime := ev.time, powerHeld := true }, [], false⟩
    else if ev.value = 0 ∧ s.powerHeld = true then
      if 1750 ≤ ev.time - s.powerPressTime then
        ⟨{ s with powerHeld := false }, [], true⟩
      else if ev.time - s.lastWakeTime < WAKE_DEBOUNCE_MS then
        ⟨{ s with powerHeld := false }, [], false⟩
      else
        ⟨{ s with powerHeld := false, lastWakeTime := ev.time },
          [Action.suspend], false⟩
    else ⟨s, [], false⟩
  else if ev.code = KEY_VOLUMEUP then
    -- case KEY_VOLUMEUP (lines 135-155)
    if ev.value ≠ 1 then ⟨s, [], false⟩
    else if s.modeHeld = true ∧ backlightOn = true then
      if s.brightness < 100 then
        ⟨{ s with brightness := s.brightness + 16 },
          [Action.setBrightness ((s.brightness + 16) * 255 / 100)], false⟩
      else ⟨s, [], false⟩
    else ⟨s, [Action.volumeUp], false⟩
  else if ev.code = KEY_VOLUMEDOWN then
    -- case KEY_VOLUMEDOWN (lines 157-177)
    if ev.value ≠ 1 then ⟨s, [], false⟩
    else if s.modeHeld = true ∧ backlightOn = true then
      if 4 < s.brightness then
        ⟨{ s with brightness := s.brightness - 16 },
          [Action.setBrightness ((s.brightness - 16) * 255 / 100)], false⟩
      else ⟨s, [], false⟩
    else ⟨s, [Action.volumeDown], false⟩
  else if ev.code = SW_LID then
    -- case SW_LID (lines 179-185): value 1 suspends unconditionally and
    -- refreshes last_wake_time.
    if ev.value = 1 then
      ⟨{ s with lastWakeTime := ev.time }, [Action.suspend], false⟩
    else ⟨s, [], false⟩
  else ⟨s, [], false⟩

/-- What one `read(fd, &ev, sizeof ev)` call returns: a full event, `-1` with
`EAGAIN` (would block), or any other failure (hard error or short read).  The
C loop condition `read(...) == sizeof(ev)` treats the last two identically. -/
inductive ReadResult where
  | ev (e : InputEvent)
  | wouldBlock
  | err
  deriving DecidableEq

/-- True exactly on a successful full-event read. -/
def ReadResult.isEv : ReadResult → Bool
  | .ev _ => true
  | _ => false

/-- Result of draining one source this tick; `unread` is the suffix of the
read sequence the loop never consumed. -/
structure DrainResult where
  state : MonitorState
  actions : List Action
  shutdown : Bool
  unread : List ReadResult
  deriving DecidableEq

/-- The inner `while (read(...) == sizeof(ev))` loop (lines 95-187) on one
source: handle events in order; a failed read ends the loop; `return true`
from the switch body aborts immediately, leaving the rest unread. -/
def drainSource (backlightOn : Bool) (s : MonitorState) :
    List ReadResult → DrainResult
  | [] => ⟨s, [], false, []⟩
  | .wouldBlock :: rest => ⟨s, [], false, .wouldBlock :: rest⟩
  | .err :: rest => ⟨s, [], false, .err :: rest⟩
  | .ev e :: rest =>
    let r := handleEvent backlightOn s e
    if r.shutdown then ⟨r.state, r.actions, true, rest⟩
    else
      let d := drainSource backlightOn r.state rest
      ⟨d.state, r.actions ++ d.actions, d.shutdown, d.unread⟩

/-- Result of one whole call to `input_monitor_check_hotkeys`; `unread` holds
the unconsumed read suffix of each source, in source order. -/
structure TickResult where
  state : MonitorState
  actions : List Action
  shutdown : Bool
  unread : List (List ReadResult)
  deriving DecidableEq

/-- The outer `for (i = 0; i < num_devices; i++)` loop (lines 90-188) over the
sources, each paired with its pending read sequence: a source with a negative
fd is skipped; a `return true` from the drain aborts the remaining sources. -/
def drainSources (backlightOn : Bool) (s : MonitorState) :
    List (Int × List ReadResult) → TickResult
  | [] => ⟨s, [], false, []⟩
  | (fd, q) :: rest =>
    if fd < 0 then
      let r := drainSources backlightOn s rest
      ⟨r.state, r.actions, r.shutdown, q :: r.unread⟩
    else
      let d := drainSource backlightOn s q
      if d.shutdown then ⟨d.state, d.actions, true, d.unread :: rest.map Prod.snd⟩
      else
        let r := drainSources backlightOn d.state rest
        ⟨r.state, d.actions ++ r.actions, r.shutdown, d.unread :: r.unread⟩

/-- The end-of-tick long-hold check (lines 190-198): if the drain did not
already `return true` and the power button is still held for at least 1750 ms
at the instant `endNow`, request shutdown. -/
def endOfTickCheck (r : TickResult) (endNow : Int) : TickResult :=
  if r.shutdown = true then r
  else if r.state.powerHeld = true ∧ 1750 ≤ endNow - r.state.powerPressTime then
    { r with shutdown := true }
  else r

/-- `input_monitor_check_hotkeys` (lines 86-201): drain every source, then the
end-of-tick long-hold check re-examines a still-held power button at the
instant `endNow`. -/
def input_monitor_check_hotkeys (backlightOn : Bool) (s : MonitorState)
    (reads : List (List ReadResult)) (endNow : Int) : TickResult :=
  endOfTickCheck (drainSources backlightOn s (s.inputFds.zip reads)) endNow

/-- A whole run: one `input_monitor_check_hotkeys` call per tick, each tick
supplying the backlight flag, the pending reads and the end-of-tick instant. -/
def runTicks (s : MonitorState) :
    List (Bool × List (List ReadResult) × Int) → MonitorState
  | [] => s
  | (bl, reads, endNow) :: rest =>
    runTicks (input_monitor_check_hotkeys bl s reads endNow).state rest

/-- A power-button event (`EV_KEY`, `KEY_POWER`). -/
def powerEvent (v t : Int) : InputEvent := ⟨EV_KEY, KEY_POWER, v, t⟩

/-- A lid-switch event (`EV_SW`, `SW_LID`). -/
def lidEvent (v t : Int) : InputEvent := ⟨EV_SW, SW_LID, v, t⟩

/-- A volume-up key event (`EV_KEY`, `KEY_VOLUMEUP`). -/
def volUpEvent (v t : Int) : InputEvent := ⟨EV_KEY, KEY_VOLUMEUP, v, t⟩

/-- A volume-down key event (`EV_KEY`, `KEY_VOLUMEDOWN`). -/
def volDownEvent (v t : Int) : InputEvent := ⟨EV_KEY, KEY_VOLUMEDOWN, v, t⟩

/-- The seven brightness values reachable from the default 52 by steps of 16
within the guards `< 100` / `> 4` (comment at input_monitor.c line 17:
"Currently 4-100 in 7 steps of 16"). -/
def brightnessSteps : List Int := [4, 20, 36, 52, 68, 84, 100]

/-- Does `hay` contain `pat` as a contiguous substring?  Models C `strstr`
(which also finds the empty pattern). -/
def hasSubstr : List Char → List Char → Bool
  | [], pat => pat.isEmpty
  | c :: t, pat => pat.isPrefixOf (c :: t) || hasSubstr t pat

/-- One entry of `/dev/input` as `find_device_by_name` sees it: the directory
entry name, whether `open(path, O_RDONLY | O_NONBLOCK)` succeeds, and the
device name the `EVIOCGNAME` ioctl reports (left as the initial "Unknown"
buffer when the ioctl fails, which the C code ignores). -/
structure DevNode where
  dName : List Char
  openable : Bool
  evName : List Char
  deriving DecidableEq

/-- Result of one `find_device_by_name` scan: the returned fd (none for -1),
every fd the scan opened, and every fd it closed, in order.  The fd of a node is
modelled by its index in the directory listing. -/
structure ScanResult where
  fd : Option Nat
  opened : List Nat
  closed : List Nat
  deriving DecidableEq

/-- The `readdir` loop of `find_device_by_name` (input_monitor.c lines 27-48)
starting at index `i`: entries whose name does not start with "event" are
skipped, unopenable entries are skipped, the first opened entry whose device
name contains the pattern is returned still open, and every other opened
entry is closed. -/
def scanNodes (pat : List Char) : Nat → List DevNode → ScanResult
  | _, [] => ⟨none, [], []⟩
  | i, n :: rest =>
    if ("event".data.isPrefixOf n.dName) = false then scanNodes pat (i + 1) rest
    else if n.openable = false then scanNodes pat (i + 1) rest
    else if hasSubstr n.evName pat = true then ⟨some i, [i], []⟩
    else
      let r := scanNodes pat (i + 1) rest
      ⟨r.fd, i :: r.opened, i :: r.closed⟩

/-- `find_device_by_name(device_name)` (lines 20-52) over the directory
listing `nodes`.  A failed `opendir` behaves exactly like an empty listing
(return -1, nothing opened), so it is subsumed by `nodes = []`. -/
def find_device_by_name (pat : List Char) (nodes : List DevNode) : ScanResult :=
  scanNodes pat 0 nodes

/-- Result of `input_monitor_init`: its return value, the fds stored in
`input_fds` (in role order), and all fds opened and closed across the three
scans. -/
structure InitResult where
  ok : Bool
  fds : List Nat
  opened : List Nat
  closed : List Nat
  deriving DecidableEq

/-- `input_monitor_init` (lines 54-84): scan for the three role patterns
"joypad", "pwrkey", "gpio-keys"; keep each found fd (the guard
`num_devices < MAX_INPUT_DEVICES` can never fail with three roles); return
false iff no device was opened. -/
def input_monitor_init (nodes : List DevNode) : InitResult :=
  let r0 := find_device_by_name "joypad".data nodes
  let r1 := find_device_by_name "pwrkey".data nodes
  let r2 := find_device_by_name "gpio-keys".data nodes
  let fds := [r0.fd, r1.fd, r2.fd].filterMap id
  { ok := !fds.isEmpty, fds := fds,
    opened := r0.opened ++ r1.opened ++ r2.opened,
    closed := r0.closed ++ r1.closed ++ r2.closed }

/-! Helper lemmas about single events. -/

/-- A power press edge while not held records the timestamp and sets the held
flag (lines 108-112). -/
theorem handleEvent_power_press (bl : Bool) (s : MonitorState) (t : Int)
    (hheld : s.powerHeld = false) :
    handleEvent bl s (powerEvent 1 t) =
      ⟨{ s with powerPressTime := t, powerHeld := true }, [], false⟩ := by
  simp [handleEvent, powerEvent, EV_KEY, EV_SW, KEY_POWER, BTN_MODE, KEY_VOLUMEUP,
    KEY_VOLUMEDOWN, SW_LID, hheld]

/-- A power release after at least 1750 ms requests shutdown with no action
and no debounce check (lines 113-122). -/
theorem handleEvent_power_release_long (bl : Bool) (s : MonitorState) (t : Int)
    (hheld : s.powerHeld = true) (hlong : 1750 ≤ t - s.powerPressTime) :
    handleEvent bl s (powerEvent 0 t) = ⟨{ s with powerHeld := false }, [], true⟩ := by
  simp [handleEvent, powerEvent, EV_KEY, EV_SW, KEY_POWER, BTN_MODE, KEY_VOLUMEUP,
    KEY_VOLUMEDOWN, SW_LID, hheld, hlong]

/-- A short power release past the debounce window suspends and refreshes the
wake timestamp (lines 124-130). -/
theorem handleEvent_power_release_suspend (bl : Bool) (s : MonitorState) (t : Int)
    (hheld : s.powerHeld = true) (hshort : t - s.powerPressTime < 1750)
    (hdeb : 500 ≤ t - s.lastWakeTime) :
    handleEvent bl s (powerEvent 0 t) =
      ⟨{ s with powerHeld := false, lastWakeTime := t }, [Action.suspend], false⟩ := by
  simp [handleEvent, powerEvent, EV_KEY, EV_SW, KEY_POWER, BTN_MODE, KEY_VOLUMEUP,
    KEY_VOLUMEDOWN, SW_LID, WAKE_DEBOUNCE_MS, hheld,
    show ¬ 1750 ≤ t - s.powerPressTime by omega,
    show ¬ t - s.lastWakeTime < 500 by omega]

/-- A short power release inside the debounce window only clears the held
flag (lines 124-127). -/
theorem handleEvent_power_release_drop (bl : Bool) (s : MonitorState) (t : Int)
    (hheld : s.powerHeld = true) (hshort : t - s.powerPressTime < 1750)
    (hdeb : t - s.lastWakeTime < 500) :
    handleEvent bl s (powerEvent 0 t) = ⟨{ s with powerHeld := false }, [], false⟩ := by
  simp [handleEvent, powerEvent, EV_KEY, EV_SW, KEY_POWER, BTN_MODE, KEY_VOLUMEUP,
    KEY_VOLUMEDOWN, SW_LID, WAKE_DEBOUNCE_MS, hheld,
    show ¬ 1750 ≤ t - s.powerPressTime by omega, hdeb]

/-! State-preservation machinery lifted from one event to whole runs. -/

/-- `input_monitor_check_hotkeys` never writes `input_fds` (no assignment to
the array occurs anywhere in the function). -/
theorem handleEvent_inputFds (bl : Bool) (s : MonitorState) (e : InputEvent) :
    (handleEvent bl s e).state.inputFds = s.inputFds := by
  unfold handleEvent
  split_ifs <;> rfl

/-- Any state property preserved by `handleEvent` is preserved by draining a
whole source. -/
theorem drainSource_preserve (bl : Bool) (P : MonitorState → Prop)
    (hP : ∀ s e, P s → P (handleEvent bl s e).state) :
    ∀ q s, P s → P (drainSource bl s q).state := by
  intro q
  induction q with
  | nil => intro s h; exact h
  | cons x rest ih =>
    intro s h
    cases x with
    | wouldBlock => exact h
    | err => exact h
    | ev e =>
      simp only [drainSource]
      by_cases hs : (handleEvent bl s e).shutdown = true
      · simp only [hs, if_true]
        exact hP s e h
      · simp only [hs, Bool.false_eq_true, if_false]
        exact ih _ (hP s e h)

/-- Any state property preserved by `handleEvent` is preserved by the source
loop. -/
theorem drainSources_preserve (bl : Bool) (P : MonitorState → Prop)
    (hP : ∀ s e, P s → P (handleEvent bl s e).state) :
    ∀ srcs s, P s → P (drainSources bl s srcs).state := by
  intro srcs
  induction srcs with
  | nil => intro s h; exact h
  | cons p rest ih =>
    obtain ⟨fd, q⟩ := p
    intro s h
    simp only [drainSources]
    by_cases hfd : fd < 0
    · simp only [hfd, if_true]
      exact ih _ h
    · simp only [hfd, if_false]
      by_cases hs : (drainSource bl s q).shutdown = true
      · simp only [hs, if_true]
        exact drainSource_preserve bl P hP q s h
      · simp only [hs, Bool.false_eq_true, if_false]
        exact ih _ (drainSource_preserve bl P hP q s h)

/-- The end-of-tick check never changes the state. -/
theorem endOfTickCheck_state (r : TickResult) (endNow : Int) :
    (endOfTickCheck r endNow).state = r.state := by
  unfold endOfTickCheck
  split_ifs <;> rfl

/-- Any state property preserved by `handleEvent` is preserved by one whole
call to `input_monitor_check_hotkeys`. -/
theorem check_preserve (bl : Bool) (P : MonitorState → Prop)
    (hP : ∀ s e, P s → P (handleEvent bl s e).state)
    (s : MonitorState) (reads : List (List ReadResult)) (endNow : Int) (h : P s) :
    P (input_monitor_check_hotkeys bl s reads endNow).state := by
  unfold input_monitor_check_hotkeys
  rw [endOfTickCheck_state]
  exact drainSources_preserve bl P hP (s.inputFds.zip reads) s h

/-- Any state property preserved by `handleEvent` for every backlight value is
an invariant of whole runs. -/
theorem runTicks_preserve (P : MonitorState → Prop)
    (hP : ∀ bl s e, P s → P (handleEvent bl s e).state) :
    ∀ ticks s, P s → P (runTicks s ticks) := by
  intro ticks
  induction ticks with
  | nil => intro s h; exact h
  | cons t rest ih =>
    obtain ⟨bl, reads, endNow⟩ := t
    intro s h
    exact ih _ (check_preserve bl P (hP bl) s reads endNow h)

/-- A tick leaves the open device handles exactly as it found them. -/
theorem check_inputFds (bl : Bool) (s : MonitorState)
    (reads : List (List ReadResult)) (endNow : Int) :
    (input_monitor_check_hotkeys bl s reads endNow).state.inputFds = s.inputFds :=
  check_preserve bl (fun x => x.inputFds = s.inputFds)
    (fun s1 e h => (handleEvent_inputFds bl s1 e).trans h) s reads endNow rfl

/-! Brightness lemmas. -/

/-- One event changes the brightness either not at all, or by +16 under the
guard `current_brightness < 100`, or by -16 under `current_brightness > 4`
(lines 141-143 and 163-165). -/
theorem handleEvent_brightness_delta (bl : Bool) (s : MonitorState) (e : InputEvent) :
    (handleEvent bl s e).state.brightness = s.brightness ∨
    (s.brightness < 100 ∧ (handleEvent bl s e).state.brightness = s.brightness + 16) ∨
    (4 < s.brightness ∧ (handleEvent bl s e).state.brightness = s.brightness - 16) := by
  unfold handleEvent
  split_ifs <;> simp_all

/-- Membership in the seven-step ladder is preserved by every event. -/
theorem handleEvent_brightness_mem (bl : Bool) (s : MonitorState) (e : InputEvent)
    (h : s.brightness ∈ brightnessSteps) :
    (handleEvent bl s e).state.brightness ∈ brightnessSteps := by
  have hd := handleEvent_brightness_delta bl s e
  simp only [brightnessSteps, List.mem_cons, List.not_mem_nil, or_false] at h ⊢
  omega

/-! Lemmas about the end-of-tick check and about unread backlog. -/

/-- The end-of-tick check never changes the unread suffixes. -/
theorem endOfTickCheck_unread (r : TickResult) (t : Int) :
    (endOfTickCheck r t).unread = r.unread := by
  unfold endOfTickCheck
  split_ifs <;> rfl

/-- The end-of-tick check never changes the emitted actions. -/
theorem endOfTickCheck_actions (r : TickResult) (t : Int) :
    (endOfTickCheck r t).actions = r.actions := by
  unfold endOfTickCheck
  split_ifs <;> rfl

/-- The end-of-tick check only ever turns the shutdown flag on, never off. -/
theorem endOfTickCheck_shutdown_mono (r : TickResult) (t : Int)
    (h : (endOfTickCheck r t).shutdown = false) : r.shutdown = false := by
  unfold endOfTickCheck at h
  split_ifs at h <;> simp_all

/-- A drain that consumes only events and does not request shutdown consumes
its whole queue. -/
theorem drainSource_unread_nil (bl : Bool) :
    ∀ q s, (∀ x ∈ q, x.isEv = true) →
      (drainSource bl s q).shutdown = false → (drainSource bl s q).unread = [] := by
  intro q
  induction q with
  | nil => intro s _ _; rfl
  | cons x rest ih =>
    intro s hall hsd
    cases x with
    | wouldBlock => simpa [ReadResult.isEv] using hall ReadResult.wouldBlock (by simp)
    | err => simpa [ReadResult.isEv] using hall ReadResult.err (by simp)
    | ev e =>
      simp only [drainSource] at hsd ⊢
      by_cases hs : (handleEvent bl s e).shutdown = true
      · simp [hs] at hsd
      · simp only [hs, Bool.false_eq_true, if_false] at hsd ⊢
        exact ih _ (fun y hy => hall y (List.mem_cons_of_mem _ hy)) hsd

/-- If all sources are live, all pending reads are events and the tick did not
request shutdown, every queue was fully consumed. -/
theorem drainSources_unread_nil (bl : Bool) :
    ∀ srcs s, (∀ p ∈ srcs, 0 ≤ p.1 ∧ ∀ x ∈ p.2, x.isEv = true) →
      (drainSources bl s srcs).shutdown = false →
      ∀ q ∈ (drainSources bl s srcs).unread, q = [] := by
  intro srcs
  induction srcs with
  | nil => intro s _ _ q hq; simp [drainSources] at hq
  | cons p rest ih =>
    obtain ⟨fd, qr⟩ := p
    intro s hall hsd q hq
    have hhead := hall (fd, qr) (by simp)
    have hfd : ¬ fd < 0 := by
      have := hhead.1
      omega
    simp only [drainSources, hfd, if_false] at hsd hq
    by_cases hs : (drainSource bl s qr).shutdown = true
    · simp [hs] at hsd
    · simp only [hs, Bool.false_eq_true, if_false] at hsd hq
      rcases List.mem_cons.mp hq with h | h
      · rw [h]
        exact drainSource_unread_nil bl qr s hhead.2 (by simpa using hs)
      · exact ih _ (fun y hy => hall y (List.mem_cons_of_mem _ hy)) hsd q h

/-- A source whose first pending read fails hard contributes nothing to the
tick: the state, actions and shutdown flag are those of the remaining
sources, and the queue of the failed source is left unread in place. -/
theorem drainSources_err_head (bl : Bool) (s : MonitorState) (fd : Int)
    (q : List ReadResult) (rest : List (Int × List ReadResult)) (hfd : 0 ≤ fd) :
    drainSources bl s ((fd, ReadResult.err :: q) :: rest)
      = { drainSources bl s rest with
          unread := (ReadResult.err :: q) :: (drainSources bl s rest).unread } := by
  simp [drainSources, drainSource, show ¬ fd < 0 by omega]

/-! Lemmas about device discovery. -/

/-- Every fd a scan opens is either closed by the scan or returned as the
match: `opened = closed ++ fd.toList`, with the match opened last. -/
theorem scanNodes_opened (pat : List Char) :
    ∀ nodes i, (scanNodes pat i nodes).opened
      = (scanNodes pat i nodes).closed ++ (scanNodes pat i nodes).fd.toList := by
  intro nodes
  induction nodes with
  | nil => intro i; rfl
  | cons n rest ih =>
    intro i
    simp only [scanNodes]
    split_ifs with h1 h2 h3
    · exact ih (i + 1)
    · exact ih (i + 1)
    · rfl
    · simp [ih (i + 1)]

/-- `find_device_by_name` never leaks a handle: every fd it opened is either
the returned match or was closed during the scan. -/
theorem find_device_opened (pat : List Char) (nodes : List DevNode) :
    (find_device_by_name pat nodes).opened
      = (find_device_by_name pat nodes).closed
        ++ (find_device_by_name pat nodes).fd.toList :=
  scanNodes_opened pat nodes 0

/-! The claims. -/

/-- C1: for every power-button press/release pair held at least 1750 ms, the
per-tick call returns true (exactly one shutdown signal) and emits no action
at all — in particular no suspend — for every value of the last-wake
timestamp, i.e. the debounce state is never consulted. -/
theorem C1_long_press_shutdown (bl : Bool) (s : MonitorState) (fd t0 t1 endNow : Int)
    (hfds : s.inputFds = [fd]) (hfd : 0 ≤ fd) (hheld : s.powerHeld = false)
    (hd : 1750 ≤ t1 - t0) :
    (input_monitor_check_hotkeys bl s
        [[ReadResult.ev (powerEvent 1 t0), ReadResult.ev (powerEvent 0 t1)]]
        endNow).shutdown = true ∧
    (input_monitor_check_hotkeys bl s
        [[ReadResult.ev (powerEvent 1 t0), ReadResult.ev (powerEvent 0 t1)]]
        endNow).actions = [] := by
  have h1 := handleEvent_power_press bl s t0 hheld
  have h2 := handleEvent_power_release_long bl
    { s with powerPressTime := t0, powerHeld := true } t1 rfl (by simpa using hd)
  unfold input_monitor_check_hotkeys
  rw [hfds]
  simp [drainSources, drainSource, endOfTickCheck, h1, h2, show ¬ fd < 0 by omega]

/-- C1 instantiated: press at 0 ms, release at 1750 ms from the freshly
initialised state. -/
theorem C1_witness :
    (input_monitor_check_hotkeys false (initialState [0])
        [[ReadResult.ev (powerEvent 1 0), ReadResult.ev (powerEvent 0 1750)]]
        1750).shutdown = true ∧
    (input_monitor_check_hotkeys false (initialState [0])
        [[ReadResult.ev (powerEvent 1 0), ReadResult.ev (powerEvent 0 1750)]]
        1750).actions = [] :=
  C1_long_press_shutdown false (initialState [0]) 0 0 1750 1750 rfl (by decide) rfl
    (by decide)

/-- C2: for a press/release pair held under 1750 ms, if at least 500 ms have
passed since the last suspend/wake action the tick emits exactly one suspend,
no shutdown, and moves the last-wake timestamp to the release instant; if
fewer than 500 ms have passed the press is dropped: no action, no shutdown,
and the last-wake timestamp is untouched. -/
theorem C2_short_press_suspend_or_drop (bl : Bool) (s : MonitorState)
    (fd t0 t1 endNow : Int)
    (hfds : s.inputFds = [fd]) (hfd : 0 ≤ fd) (hheld : s.powerHeld = false)
    (hshort : t1 - t0 < 1750) :
    (500 ≤ t1 - s.lastWakeTime →
      (input_monitor_check_hotkeys bl s
          [[ReadResult.ev (powerEvent 1 t0), ReadResult.ev (powerEvent 0 t1)]]
          endNow).actions = [Action.suspend] ∧
      (input_monitor_check_hotkeys bl s
          [[ReadResult.ev (powerEvent 1 t0), ReadResult.ev (powerEvent 0 t1)]]
          endNow).shutdown = false ∧
      (input_monitor_check_hotkeys bl s
          [[ReadResult.ev (powerEvent 1 t0), ReadResult.ev (powerEvent 0 t1)]]
          endNow).state.lastWakeTime = t1) ∧
    (t1 - s.lastWakeTime < 500 →
      (input_monitor_check_hotkeys bl s
          [[ReadResult.ev (powerEvent 1 t0), ReadResult.ev (powerEvent 0 t1)]]
          endNow).actions = [] ∧
      (input_monitor_check_hotkeys bl s
          [[ReadResult.ev (powerEvent 1 t0), ReadResult.ev (powerEvent 0 t1)]]
          endNow).shutdown = false ∧
      (input_monitor_check_hotkeys bl s
          [[ReadResult.ev (powerEvent 1 t0), ReadResult.ev (powerEvent 0 t1)]]
          endNow).state.lastWakeTime = s.lastWakeTime) := by
  have h1 := handleEvent_power_press bl s t0 hheld
  constructor
  · intro hdeb
    have h2 := handleEvent_power_release_suspend bl
      { s with powerPressTime := t0, powerHeld := true } t1 rfl
      (by simpa using hshort) (by simpa using hdeb)
    unfold input_monitor_check_hotkeys
    rw [hfds]
    simp [drainSources, drainSource, endOfTickCheck, h1, h2, show ¬ fd < 0 by omega]
  · intro hdeb
    have h2 := handleEvent_power_release_drop bl
      { s with powerPressTime := t0, powerHeld := true } t1 rfl
      (by simpa using hshort) (by simpa using hdeb)
    unfold input_monitor_check_hotkeys
    rw [hfds]
    simp [drainSources, drainSource, endOfTickCheck, h1, h2, show ¬ fd < 0 by omega]

/-- C2 instantiated: press at 100 ms, release at 600 ms with the last wake at
0 ms, so 500 ms have elapsed and one suspend fires. -/
theorem C2_witness :
    (input_monitor_check_hotkeys false (initialState [0])
        [[ReadResult.ev (powerEvent 1 100), ReadResult.ev (powerEvent 0 600)]]
        600).actions = [Action.suspend] ∧
    (input_monitor_check_hotkeys false (initialState [0])
        [[ReadResult.ev (powerEvent 1 100), ReadResult.ev (powerEvent 0 600)]]
        600).shutdown = false ∧
    (input_monitor_check_hotkeys false (initialState [0])
        [[ReadResult.ev (powerEvent 1 100), ReadResult.ev (powerEvent 0 600)]]
        600).state.lastWakeTime = 600 :=
  (C2_short_press_suspend_or_drop false (initialState [0]) 0 100 600 600 rfl
    (by decide) rfl (by decide)).1 (by decide)

/-- C10: a short power release falling inside the 500 ms debounce window
changes exactly the held flag and nothing else: no action, no shutdown, and
in particular the last-wake timestamp keeps its old value, so the debounce
window stays anchored at the last actual suspend/wake action. -/
theorem C10_dropped_press_frame (bl : Bool) (s : MonitorState) (t : Int)
    (hheld : s.powerHeld = true) (hshort : t - s.powerPressTime < 1750)
    (hdeb : t - s.lastWakeTime < 500) :
    handleEvent bl s (powerEvent 0 t) =
      ⟨{ s with powerHeld := false }, [], false⟩ :=
  handleEvent_power_release_drop bl s t hheld hshort hdeb

/-- C10 instantiated: held since 0 ms, released at 700 ms, last wake at
400 ms: only the held flag changes. -/
theorem C10_witness :
    handleEvent false ⟨[], 0, 400, true, false, 52⟩ (powerEvent 0 700) =
      ⟨⟨[], 0, 400, false, false, 52⟩, [], false⟩ :=
  C10_dropped_press_frame false ⟨[], 0, 400, true, false, 52⟩ 700 rfl (by decide)
    (by decide)

/-- C7: on a volume-up press edge with the mode button held and the backlight
enabled, the brightness rises by exactly one 16-unit step and one
set-brightness action is emitted, except at the maximum step 100 where the
event is a no-op; symmetrically volume-down at the minimum step 4 is a no-op;
and the level never leaves the seven-step range. -/
theorem C7_brightness_step_clamped (s : MonitorState) (t : Int)
    (hmode : s.modeHeld = true) (hmem : s.brightness ∈ brightnessSteps) :
    (s.brightness ≠ 100 →
      (handleEvent true s (volUpEvent 1 t)).state.brightness = s.brightness + 16 ∧
      (handleEvent true s (volUpEvent 1 t)).actions
        = [Action.setBrightness ((s.brightness + 16) * 255 / 100)]) ∧
    (s.brightness = 100 →
      (handleEvent true s (volUpEvent 1 t)).state = s ∧
      (handleEvent true s (volUpEvent 1 t)).actions = []) ∧
    (s.brightness = 4 →
      (handleEvent true s (volDownEvent 1 t)).state = s ∧
      (handleEvent true s (volDownEvent 1 t)).actions = []) ∧
    (handleEvent true s (volUpEvent 1 t)).state.brightness ∈ brightnessSteps ∧
    (handleEvent true s (volDownEvent 1 t)).state.brightness ∈ brightnessSteps := by
  refine ⟨?_, ?_, ?_, handleEvent_brightness_mem true s _ hmem,
    handleEvent_brightness_mem true s _ hmem⟩
  · intro hne
    have hlt : s.brightness < 100 := by
      simp only [brightnessSteps, List.mem_cons, List.not_mem_nil, or_false] at hmem
      omega
    simp [handleEvent, volUpEvent, EV_KEY, EV_SW, KEY_VOLUMEUP, KEY_POWER, BTN_MODE,
      KEY_VOLUMEDOWN, SW_LID, hmode, hlt]
  · intro h100
    simp [handleEvent, volUpEvent, EV_KEY, EV_SW, KEY_VOLUMEUP, KEY_POWER, BTN_MODE,
      KEY_VOLUMEDOWN, SW_LID, hmode, h100]
  · intro h4
    simp [handleEvent, volDownEvent, EV_KEY, EV_SW, KEY_VOLUMEUP, KEY_POWER, BTN_MODE,
      KEY_VOLUMEDOWN, SW_LID, hmode, h4]

/-- C7 instantiated: from brightness 84 with mode held and backlight on, a
volume-up press steps to 100 and writes the backlight once. -/
theorem C7_witness :
    (handleEvent true ⟨[], 0, 0, false, true, 84⟩ (volUpEvent 1 5)).state.brightness
      = 84 + 16 ∧
    (handleEvent true ⟨[], 0, 0, false, true, 84⟩ (volUpEvent 1 5)).actions
      = [Action.setBrightness ((84 + 16) * 255 / 100)] :=
  (C7_brightness_step_clamped ⟨[], 0, 0, false, true, 84⟩ 5 rfl (by decide)).1 (by decide)

/-- C9: from the initial level 52, after any sequence of ticks the brightness
is one of the seven values 4, 20, 36, 52, 68, 84, 100; and every single event
either keeps the level, adds 16 under the guard that it was strictly below
100, or subtracts 16 under the guard that it was strictly above 4. -/
theorem C9_brightness_invariant :
    (∀ fds ticks, (runTicks (initialState fds) ticks).brightness ∈ brightnessSteps) ∧
    (∀ bl s e,
      (handleEvent bl s e).state.brightness = s.brightness ∨
      (s.brightness < 100 ∧ (handleEvent bl s e).state.brightness = s.brightness + 16) ∨
      (4 < s.brightness ∧ (handleEvent bl s e).state.brightness = s.brightness - 16)) :=
  ⟨fun fds ticks => runTicks_preserve (fun x => x.brightness ∈ brightnessSteps)
      (fun bl s e h => handleEvent_brightness_mem bl s e h) ticks (initialState fds)
      (by norm_num [initialState, brightnessSteps]),
   handleEvent_brightness_delta⟩

/-- C3 is false on the code: a press at 0 ms with the button still held makes
the tick ending at 1750 ms signal shutdown, and then a later no-event tick
signals shutdown again, and the eventual release edge at 1800 ms signals it a
third time — nothing records that shutdown was already signalled for this
press cycle. -/
theorem C3_cex :
    (input_monitor_check_hotkeys false (initialState [0])
        [[ReadResult.ev (powerEvent 1 0)]] 1750).shutdown = true ∧
    (input_monitor_check_hotkeys false
        (input_monitor_check_hotkeys false (initialState [0])
          [[ReadResult.ev (powerEvent 1 0)]] 1750).state
        [[]] 1800).shutdown = true ∧
    (handleEvent false
        (input_monitor_check_hotkeys false (initialState [0])
          [[ReadResult.ev (powerEvent 1 0)]] 1750).state
        (powerEvent 0 1800)).shutdown = true := by decide

/-- C3 amended: while the power button stays held with duration at least
1750 ms, every tick signals shutdown and leaves the state unchanged, so the
signal repeats on every later tick; and the eventual release of such a press
signals shutdown once more. -/
theorem C3_amended_reshutdown (bl : Bool) (s : MonitorState) (endNow : Int)
    (hheld : s.powerHeld = true) (hlong : 1750 ≤ endNow - s.powerPressTime) :
    (input_monitor_check_hotkeys bl s [] endNow).shutdown = true ∧
    (input_monitor_check_hotkeys bl s [] endNow).state = s ∧
    (∀ t, 1750 ≤ t - s.powerPressTime →
      (handleEvent bl s (powerEvent 0 t)).shutdown = true) := by
  refine ⟨?_, ?_, fun t ht => ?_⟩
  · simp [input_monitor_check_hotkeys, drainSources, endOfTickCheck, hheld, hlong]
  · simp [input_monitor_check_hotkeys, drainSources, endOfTickCheck, hheld, hlong]
  · rw [handleEvent_power_release_long bl s t hheld ht]

/-- C3 amended, instantiated at a held press recorded at 0 ms. -/
theorem C3_witness :
    (input_monitor_check_hotkeys true ⟨[], 0, 0, true, false, 52⟩ [] 1750).shutdown
      = true ∧
    (input_monitor_check_hotkeys true ⟨[], 0, 0, true, false, 52⟩ [] 1750).state
      = ⟨[], 0, 0, true, false, 52⟩ ∧
    (handleEvent true ⟨[], 0, 0, true, false, 52⟩ (powerEvent 0 1800)).shutdown = true :=
  ⟨(C3_amended_reshutdown true ⟨[], 0, 0, true, false, 52⟩ 1750 rfl (by decide)).1,
   (C3_amended_reshutdown true ⟨[], 0, 0, true, false, 52⟩ 1750 rfl (by decide)).2.1,
   (C3_amended_reshutdown true ⟨[], 0, 0, true, false, 52⟩ 1750 rfl
      (by decide)).2.2 1800 (by decide)⟩

/-- C4 is false on the code: a short power release at 1000 ms fires a suspend
and anchors the wake timestamp at 1000, yet a lid-close only 100 ms later —
well inside the 500 ms window — fires a second suspend. -/
theorem C4_cex :
    (handleEvent false ⟨[], 400, 0, true, false, 52⟩ (powerEvent 0 1000)).actions
      = [Action.suspend] ∧
    (handleEvent false ⟨[], 400, 0, true, false, 52⟩
        (powerEvent 0 1000)).state.lastWakeTime = 1000 ∧
    (handleEvent false
        (handleEvent false ⟨[], 400, 0, true, false, 52⟩ (powerEvent 0 1000)).state
        (lidEvent 1 1100)).actions = [Action.suspend] ∧
    (1100 : Int) - 1000 < 500 := by decide

/-- C4 amended: only power-button releases are debounced — a suspend emitted
while handling a power event fires at least 500 ms after the last-wake
timestamp and moves that timestamp to the event instant; events that emit no
suspend leave the timestamp unchanged; a lid-close (value 1) suspends
unconditionally, bypassing the debounce window, and also moves the
timestamp. -/
theorem C4_amended_power_only_debounce :
    (∀ bl s ev, ev.code = KEY_POWER →
      Action.suspend ∈ (handleEvent bl s ev).actions →
      500 ≤ ev.time - s.lastWakeTime ∧
      (handleEvent bl s ev).state.lastWakeTime = ev.time) ∧
    (∀ bl s e, Action.suspend ∉ (handleEvent bl s e).actions →
      (handleEvent bl s e).state.lastWakeTime = s.lastWakeTime) ∧
    (∀ bl s t, handleEvent bl s (lidEvent 1 t)
      = ⟨{ s with lastWakeTime := t }, [Action.suspend], false⟩) := by
  refine ⟨?_, ?_, ?_⟩
  · intro bl s ev hcode hmem
    unfold handleEvent at hmem ⊢
    simp only [hcode, KEY_POWER, BTN_MODE, KEY_VOLUMEUP, KEY_VOLUMEDOWN, SW_LID,
      WAKE_DEBOUNCE_MS] at hmem ⊢
    split_ifs at hmem ⊢ <;> simp_all
  · intro bl s e hmem
    revert hmem
    unfold handleEvent
    split_ifs <;> intro hmem <;> first | rfl | simp at hmem
  · intro bl s t
    simp [handleEvent, lidEvent, EV_KEY, EV_SW, SW_LID, KEY_POWER, BTN_MODE,
      KEY_VOLUMEUP, KEY_VOLUMEDOWN]

/-- C4 amended, instantiated: the suspend fired by the release at 1000 ms
satisfies the 500 ms window against the last wake at 0 and re-anchors the
timestamp at 1000. -/
theorem C4_witness :
    (500 : Int) ≤ 1000 - 0 ∧
    (handleEvent false ⟨[], 400, 0, true, false, 52⟩
        (powerEvent 0 1000)).state.lastWakeTime = 1000 :=
  C4_amended_power_only_debounce.1 false ⟨[], 400, 0, true, false, 52⟩
    (powerEvent 0 1000) rfl (by decide)

/-- C5 is false on the code: after a hard read error on the only source, the
state is unchanged — in particular the fd is not marked dead — and on the
very next tick the same source delivers an event that produces an action, so
it was not skipped. -/
theorem C5_cex :
    (input_monitor_check_hotkeys false (initialState [0]) [[ReadResult.err]] 10).state
      = initialState [0] ∧
    (input_monitor_check_hotkeys false
        (input_monitor_check_hotkeys false (initialState [0])
          [[ReadResult.err]] 10).state
        [[ReadResult.ev (volDownEvent 1 20)]] 20).actions = [Action.volumeDown] := by
  decide

/-- C5 amended: a read failure only ends the drain of that source for the current
tick — `input_fds` is never written, so no source is ever marked dead, and a
source whose read fails contributes nothing this tick while the remaining
sources are processed exactly as if it were absent. -/
theorem C5_amended_error_ends_drain_only (bl : Bool) (s : MonitorState)
    (reads : List (List ReadResult)) (endNow fd : Int)
    (q : List ReadResult) (rest : List (Int × List ReadResult)) (hfd : 0 ≤ fd) :
    (input_monitor_check_hotkeys bl s reads endNow).state.inputFds = s.inputFds ∧
    drainSources bl s ((fd, ReadResult.err :: q) :: rest)
      = { drainSources bl s rest with
          unread := (ReadResult.err :: q) :: (drainSources bl s rest).unread } :=
  ⟨check_inputFds bl s reads endNow, drainSources_err_head bl s fd q rest hfd⟩

/-- C5 amended, instantiated on one erroring source. -/
theorem C5_witness :
    (input_monitor_check_hotkeys false (initialState [0])
        [[ReadResult.err]] 10).state.inputFds = [0] ∧
    drainSources false (initialState [0]) [((0 : Int), [ReadResult.err])]
      = { drainSources false (initialState [0]) [] with
          unread := [ReadResult.err] :: (drainSources false (initialState [0]) []).unread } :=
  C5_amended_error_ends_drain_only false (initialState [0]) [[ReadResult.err]] 10 0 [] []
    (by decide)

/-- C6 is false on the code: a tick whose only source queues a long
press/release pair followed by a volume event returns (with shutdown) while
the volume event is still queued on that live source. -/
theorem C6_cex :
    (input_monitor_check_hotkeys false (initialState [0])
        [[ReadResult.ev (powerEvent 1 0), ReadResult.ev (powerEvent 0 1750),
          ReadResult.ev (volDownEvent 1 1750)]] 1750).shutdown = true ∧
    (input_monitor_check_hotkeys false (initialState [0])
        [[ReadResult.ev (powerEvent 1 0), ReadResult.ev (powerEvent 0 1750),
          ReadResult.ev (volDownEvent 1 1750)]] 1750).unread
      = [[ReadResult.ev (volDownEvent 1 1750)]] := by decide

/-- C6 amended: a call that does not signal shutdown drains every live
queued events of every live source completely (here: all sources live and every pending
read an event), so no backlog remains; a call that signals shutdown may
return early with events still queued. -/
theorem C6_amended_no_backlog_without_shutdown (bl : Bool) (s : MonitorState)
    (reads : List (List ReadResult)) (endNow : Int)
    (hlive : ∀ fd ∈ s.inputFds, 0 ≤ fd)
    (hev : ∀ q ∈ reads, ∀ x ∈ q, x.isEv = true)
    (hsd : (input_monitor_check_hotkeys bl s reads endNow).shutdown = false) :
    ((input_monitor_check_hotkeys bl s reads endNow).unread.all
      (fun q => q.isEmpty)) = true := by
  rw [List.all_eq_true]
  intro q hq
  unfold input_monitor_check_hotkeys at hq hsd
  rw [endOfTickCheck_unread] at hq
  have hsd2 := endOfTickCheck_shutdown_mono _ _ hsd
  have hnil : q = [] := by
    refine drainSources_unread_nil bl (s.inputFds.zip reads) s ?_ hsd2 q hq
    intro p hp
    obtain ⟨pfd, pq⟩ := p
    have hz := List.of_mem_zip hp
    exact ⟨hlive _ hz.1, hev _ hz.2⟩
  simp [hnil]

/-- C6 amended, instantiated on one live source holding one event. -/
theorem C6_witness :
    ((input_monitor_check_hotkeys false (initialState [0])
        [[ReadResult.ev (volUpEvent 1 3)]] 3).unread.all
      (fun q => q.isEmpty)) = true :=
  C6_amended_no_backlog_without_shutdown false (initialState [0])
    [[ReadResult.ev (volUpEvent 1 3)]] 3 (by decide) (by decide) (by decide)

/-- C8: `input_monitor_init` returns false exactly when none of the three
requested roles resolved to an open device (any proper subset failing is
non-fatal), and in that failure case every fd opened while scanning was
closed before returning. -/
theorem C8_init_fails_iff_no_device (nodes : List DevNode) :
    ((input_monitor_init nodes).ok = false ↔
      (find_device_by_name "joypad".data nodes).fd = none ∧
      (find_device_by_name "pwrkey".data nodes).fd = none ∧
      (find_device_by_name "gpio-keys".data nodes).fd = none) ∧
    ((input_monitor_init nodes).ok = false →
      (input_monitor_init nodes).opened = (input_monitor_init nodes).closed) := by
  have hiff : (input_monitor_init nodes).ok = false ↔
      (find_device_by_name "joypad".data nodes).fd = none ∧
      (find_device_by_name "pwrkey".data nodes).fd = none ∧
      (find_device_by_name "gpio-keys".data nodes).fd = none := by
    simp only [input_monitor_init]
    cases h0 : (find_device_by_name "joypad".data nodes).fd <;>
      cases h1 : (find_device_by_name "pwrkey".data nodes).fd <;>
        cases h2 : (find_device_by_name "gpio-keys".data nodes).fd <;>
          simp [h0, h1, h2]
  refine ⟨hiff, fun hfail => ?_⟩
  obtain ⟨h0, h1, h2⟩ := hiff.mp hfail
  have e0 := find_device_opened "joypad".data nodes
  have e1 := find_device_opened "pwrkey".data nodes
  have e2 := find_device_opened "gpio-keys".data nodes
  rw [h0] at e0
  rw [h1] at e1
  rw [h2] at e2
  simp only [Option.toList, List.append_nil] at e0 e1 e2
  simp only [input_monitor_init]
  rw [e0, e1, e2]

/-- C8 instantiated: a single openable event node matching no role makes init
fail with every opened fd closed. -/
theorem C8_witness :
    (input_monitor_init [⟨"event0".data, true, "mouse".data⟩]).ok = false ∧
    (input_monitor_init [⟨"event0".data, true, "mouse".data⟩]).opened
      = (input_monitor_init [⟨"event0".data, true, "mouse".data⟩]).closed :=
  ⟨by decide,
   (C8_init_fails_iff_no_device [⟨"event0".data, true, "mouse".data⟩]).2 (by decide)⟩

end Mimiki
